import Mathlib

/-!
Shallow embedding of the todoapp backend (src/backend) for checking the
claims of the specification.

Modelling conventions:
* Timestamps are `Int` seconds (the code works at `datetime` resolution;
  PyJWT compares integral `exp` against the current unix time).
* The SQLite store is a `Store`: the rows of `todo_user` and `todo_item`
  plus the next autoincrement value for `todo_item.item_id`.
* Every CRUD function wraps its body in `try/except`; a store-level fault
  (connection error, constraint violation raised by SQLite, ...) is modelled
  by an explicit `fault : Bool` argument: `fault = true` means the store
  raises during the call, the `except` branch runs (rollback, log) and the
  state is unchanged.
* Pydantic schemas: `schemas/item.py` has optional fields with defaults, and
  `create_item`/`update_item` call `model_dump(exclude_unset=True)`, so the
  `ItemSchema` embedding carries one `set_*` flag per field mirroring
  `__pydantic_fields_set__` (attribute assignment in Pydantic v2 adds the
  field to that set; `model_validate` from an ORM row sets every field).
  `schemas/user.py` has only required fields and `cruds/user.py` always uses
  the full `model_dump()`, so no flags are needed there and
  `UserSchema.model_validate` is the identity on the three fields.
* SQLite specifics that the code relies on: primary-key uniqueness and
  NOT NULL are always enforced; foreign keys are NOT enforced because the
  `foreign_keys` pragma is never turned on (`tododb.py` creates a plain
  `sqlite+aiosqlite` engine).
-/

structure User where
  user_id : String
  name : String
  password : String
deriving DecidableEq, Repr

structure ItemRecord where
  item_id : Nat
  task_name : String
  user_id : String
  expire_date : Int
  finished_date : Option Int
deriving DecidableEq, Repr

/-- Pydantic `schemas.item.Item`: field values plus the fields-set flags. -/
structure ItemSchema where
  item_id : Option Nat
  task_name : String
  user_id : String
  expire_date : Int
  finished_date : Option Int
  set_item_id : Bool
  set_task_name : Bool
  set_user_id : Bool
  set_expire_date : Bool
  set_finished_date : Bool
deriving DecidableEq, Repr

/-- The SQLite database: `todo_user` rows, `todo_item` rows, and the next
autoincrement value for `todo_item.item_id`. -/
structure Store where
  users : List User
  items : List ItemRecord
  nextItemId : Nat
deriving DecidableEq, Repr

/-- Embeds `ItemSchema.model_validate(orm_row)`: copies every column and marks every
field as set. -/
def itemModelValidate (r : ItemRecord) : ItemSchema :=
  ⟨some r.item_id, r.task_name, r.user_id, r.expire_date, r.finished_date,
   true, true, true, true, true⟩

/-- Embeds `select(ItemModel).where(ItemModel.item_id == item_id)` followed by
`scalar_one_or_none()` (item_id is the primary key, so at most one row). -/
def findItem (st : Store) (iid : Nat) : Option ItemRecord :=
  st.items.find? (fun r => r.item_id == iid)

/-- Embeds `select(UserModel).where(UserModel.user_id == user_id)` followed by
`scalar_one_or_none()`. -/
def findUser (st : Store) (uid : String) : Option User :=
  st.users.find? (fun u => u.user_id == uid)

/-! ### cruds/item.py -/

/-- Embeds `cruds.item.get_item`: all rows of `todo_item`; `[]` on a store fault. -/
def get_item (st : Store) (fault : Bool) : List ItemSchema :=
  if fault then [] else st.items.map itemModelValidate

/-- Embeds `cruds.item.get_item_by_user_id`: rows whose `user_id` column matches;
`[]` on a store fault. -/
def get_item_by_user_id (st : Store) (uid : String) (fault : Bool) :
    List ItemSchema :=
  if fault then []
  else (st.items.filter (fun r => r.user_id == uid)).map itemModelValidate

/-- Embeds `cruds.item.get_item_by_id`: single lookup; `None` both when the row is
missing and on a store fault. -/
def get_item_by_id (st : Store) (iid : Nat) (fault : Bool) : Option ItemSchema :=
  if fault then none else (findItem st iid).map itemModelValidate

/-- Embeds `cruds.item.delete_item`: load by id, delete and commit when found;
`False` when missing, `False` with rollback on a fault. -/
def delete_item (st : Store) (iid : Nat) (fault : Bool) : Bool × Store :=
  if fault then (false, st)
  else
    match findItem st iid with
    | some _ =>
        (true, { st with items := st.items.filter (fun r => !(r.item_id == iid)) })
    | none => (false, st)

/-- Embeds `cruds.item.create_item`: `ItemModel(**item.model_dump(exclude_unset=True))`,
add, commit, refresh.  Unset fields take the column default: `item_id` is
autoincrement-assigned, `finished_date` defaults to NULL; `task_name`,
`user_id` and `expire_date` are NOT NULL with no default, so leaving them
unset makes the INSERT fail (rollback, `None`).  An explicitly supplied
`item_id` that collides with an existing row also fails the INSERT. -/
def create_item (st : Store) (it : ItemSchema) (fault : Bool) :
    Option ItemSchema × Store :=
  if fault then (none, st)
  else if it.set_task_name && it.set_user_id && it.set_expire_date then
    let fd : Option Int := if it.set_finished_date then it.finished_date else none
    match (if it.set_item_id then it.item_id else none) with
    | some v =>
        if st.items.any (fun r => r.item_id == v) then (none, st)
        else
          let newRec : ItemRecord := ⟨v, it.task_name, it.user_id, it.expire_date, fd⟩
          (some (itemModelValidate newRec),
           { st with items := st.items ++ [newRec],
                     nextItemId := max st.nextItemId (v + 1) })
    | none =>
        let newRec : ItemRecord :=
          ⟨st.nextItemId, it.task_name, it.user_id, it.expire_date, fd⟩
        (some (itemModelValidate newRec),
         { st with items := st.items ++ [newRec], nextItemId := st.nextItemId + 1 })
  else (none, st)

/-- Embeds `cruds.item.update_item`: load by id (`None` when missing), then
`setattr` every field of `model_dump(exclude_unset=True)` onto the row and
commit.  Setting the primary key to `None` or onto an existing row makes the
flush fail (rollback, `None`). -/
def update_item (st : Store) (iid : Nat) (d : ItemSchema) (fault : Bool) :
    Option ItemSchema × Store :=
  if fault then (none, st)
  else
    match findItem st iid with
    | none => (none, st)
    | some r0 =>
        match (if d.set_item_id then d.item_id else some r0.item_id) with
        | none => (none, st)
        | some nid =>
            if !(nid == r0.item_id) && st.items.any (fun r => r.item_id == nid) then
              (none, st)
            else
              let r1 : ItemRecord :=
                ⟨nid,
                 if d.set_task_name then d.task_name else r0.task_name,
                 if d.set_user_id then d.user_id else r0.user_id,
                 if d.set_expire_date then d.expire_date else r0.expire_date,
                 if d.set_finished_date then d.finished_date else r0.finished_date⟩
              (some (itemModelValidate r1),
               { st with items := st.items.map (fun r => if r.item_id == iid then r1 else r) })

/-- Embeds `cruds.item.update_finished_date`: load by id (`None` when missing), set
only `finished_date`, commit, refresh, return the validated row. -/
def update_finished_date (st : Store) (iid : Nat) (fd : Option Int) (fault : Bool) :
    Option ItemSchema × Store :=
  if fault then (none, st)
  else
    match findItem st iid with
    | none => (none, st)
    | some r0 =>
        let r1 : ItemRecord := { r0 with finished_date := fd }
        (some (itemModelValidate r1),
         { st with items := st.items.map (fun r => if r.item_id == iid then r1 else r) })

/-! ### cruds/user.py -/

/-- Embeds `cruds.user.get_user_by_id`: single lookup; `None` when missing and on a
store fault. -/
def get_user_by_id (st : Store) (uid : String) (fault : Bool) : Option User :=
  if fault then none else findUser st uid

/-- Embeds `cruds.user.get_user_by_id_and_password`: equality match on both columns;
`None` when no match and on a store fault. -/
def get_user_by_id_and_password (st : Store) (uid pw : String) (fault : Bool) :
    Option User :=
  if fault then none
  else st.users.find? (fun u => u.user_id == uid && u.password == pw)

/-- Embeds `cruds.user.get_users`: every row of `todo_user`; `None` on a store fault
(note: a successful query over an empty table returns `[]`, not `None`). -/
def get_users (st : Store) (fault : Bool) : Option (List User) :=
  if fault then none else some st.users

/-- Embeds `cruds.user.create_user`: `UserModel(**user_data.model_dump())` — every
field of the candidate is applied — then add, commit, refresh.  A duplicate
primary key fails the INSERT (rollback, `None`). -/
def create_user (st : Store) (u : User) (fault : Bool) : Option User × Store :=
  if fault then (none, st)
  else if st.users.any (fun x => x.user_id == u.user_id) then (none, st)
  else (some u, { st with users := st.users ++ [u] })

/-- Embeds `cruds.user.update_user`: load by id (`None` when missing), then
`setattr` every field of the full `model_dump()` onto the row — including
`user_id`, the primary key — and commit.  Moving the primary key onto an
existing row fails the flush (rollback, `None`); foreign keys are not
enforced by the engine, so dangling `todo_item.user_id` references do not
block the change. -/
def update_user (st : Store) (uid : String) (d : User) (fault : Bool) :
    Option User × Store :=
  if fault then (none, st)
  else
    match findUser st uid with
    | none => (none, st)
    | some u0 =>
        if !(d.user_id == u0.user_id) && st.users.any (fun x => x.user_id == d.user_id) then
          (none, st)
        else
          (some d,
           { st with users := st.users.map (fun x => if x.user_id == uid then d else x) })

/-- Embeds `cruds.user.delete_user`: load by id (`False` when missing), then
`await session.delete(user)` and commit.  The `Item.user_id` foreign key is
declared `ondelete=SET NULL` (not CASCADE) and the ORM relationship has no
delete cascade, so on flush SQLAlchemy nulls out the `user_id` column of every
dependent `todo_item` row; that column is `nullable=False`, so whenever the
user still owns items the flush raises an integrity error, the `except`
branch rolls back and `False` is returned with the store unchanged.  (This
contradicts the docstring of the function, which says the items of the user are
CASCADE-deleted.) -/
def delete_user (st : Store) (uid : String) (fault : Bool) : Bool × Store :=
  if fault then (false, st)
  else
    match findUser st uid with
    | none => (false, st)
    | some _ =>
        if st.items.any (fun r => r.user_id == uid) then (false, st)
        else (true, { st with users := st.users.filter (fun x => !(x.user_id == uid)) })

/-! ### security/auth.py -/

def SECRET_KEY : String := "learning-secret-key"

/-- A decoded JWT claims set: the payload built by `create_access_token` has
keys `user_id` and `exp`. -/
structure JwtPayload where
  user_id : Option String
  exp : Int
deriving DecidableEq, Repr

/-- A presented bearer credential: either a structurally valid JWT carrying a
payload and the key it was signed with, or an unparseable string. -/
inductive BearerToken where
  | signed (payload : JwtPayload) (key : String)
  | malformed (raw : String)
deriving DecidableEq, Repr

/-- Embeds `security.auth.create_access_token`: payload
`{user_id, exp = utcnow() + 24h}` signed with `SECRET_KEY` (HS256). -/
def create_access_token (now : Int) (uid : String) : BearerToken :=
  .signed ⟨some uid, now + 24 * 3600⟩ SECRET_KEY

inductive JwtDecodeResult where
  | ok (p : JwtPayload)
  | expiredSignatureError
  | invalidTokenError
deriving DecidableEq, Repr

/-- PyJWT `jwt.decode(token, key, algorithms=[...])`: signature is verified
first (failure: `InvalidSignatureError`/`DecodeError`, both
`InvalidTokenError`s), then the `exp` claim is validated with
`exp <= now - leeway` (leeway 0) raising `ExpiredSignatureError`. -/
def jwtDecode (tok : BearerToken) (key : String) (now : Int) : JwtDecodeResult :=
  match tok with
  | .malformed _ => .invalidTokenError
  | .signed p k =>
      if !(k == key) then .invalidTokenError
      else if p.exp ≤ now then .expiredSignatureError
      else .ok p

/-- Outcome of `security.auth.get_current_user` for one request. -/
inductive AuthOutcome where
  | ok (u : User)
  | httpError (status : Nat) (detail : String)
  | attributeError
deriving DecidableEq, Repr

/-- Embeds `security.auth.get_current_user`.  The body decodes the token, reads
`user_id` from the payload and looks the user up; `HTTPException(401, ...)`
is raised inside the `try` block for a missing `user_id` or an unknown user.
The handlers are `except jwt.ExpiredSignatureError` and `except jwt.JWTError`.
The module in use is PyJWT (`import jwt`), which defines
`ExpiredSignatureError` but no attribute `JWTError` (that name belongs to
python-jose); so whenever a non-`ExpiredSignatureError` exception reaches the
handlers — an invalid/malformed token, or one of the two in-`try`
`HTTPException(401)`s — evaluating the class expression `jwt.JWTError` itself
raises `AttributeError`, which propagates to the framework as an unhandled
internal error instead of a 401 response. -/
def get_current_user (tok : BearerToken) (now : Int) (st : Store) (fault : Bool) :
    AuthOutcome :=
  match jwtDecode tok SECRET_KEY now with
  | .expiredSignatureError => .httpError 401 "トークンの有効期限が切れています"
  | .invalidTokenError => .attributeError
  | .ok p =>
      match p.user_id with
      | none => .attributeError
      | some uid =>
          match get_user_by_id st uid fault with
          | none => .attributeError
          | some u => .ok u

/-! ### routers/item.py and utils/exceptions.py -/

/-- Outcome of an item endpoint call. -/
inductive HandlerOutcome where
  | returned (r : Option ItemSchema)
  | httpError (status : Nat) (detail : String)
deriving DecidableEq, Repr

/-- Embeds `utils.exceptions.raise_not_found`: `HTTPException(404, f"...が見つかりません")`. -/
def raise_not_found (resource : String) : HandlerOutcome :=
  .httpError 404 (resource ++ "が見つかりません")

/-- Embeds `utils.exceptions.raise_bad_request`: `HTTPException(400, message)`. -/
def raise_bad_request (message : String) : HandlerOutcome :=
  .httpError 400 message

/-- Embeds `routers.item.create_item_endpoint`: `item.user_id = current_user.user_id`
(Pydantic v2 attribute assignment also adds `user_id` to the fields-set),
then `create_item`; its `Option` result is returned as the response body
(`None` is serialized as `null`, no exception is raised by `create_item`). -/
def create_item_endpoint (it : ItemSchema) (cu : User) (st : Store) (fault : Bool) :
    HandlerOutcome × Store :=
  let it2 := { it with user_id := cu.user_id, set_user_id := true }
  let res := create_item st it2 fault
  (.returned res.fst, res.snd)

/-- Embeds `routers.item.update_item_endpoint`: forces `item.user_id` to the caller,
calls `update_item`; when that returns `None` the handler calls
`raise_not_found("Item not found")` *inside its own `try` block*, so the 404
`HTTPException` is immediately caught by `except Exception` and replaced by
`raise_bad_request("Failed to update item")`, a 400. -/
def update_item_endpoint (iid : Nat) (it : ItemSchema) (cu : User) (st : Store)
    (fault : Bool) : HandlerOutcome × Store :=
  let it2 := { it with user_id := cu.user_id, set_user_id := true }
  match update_item st iid it2 fault with
  | (some r, st2) => (.returned (some r), st2)
  | (none, st2) => (raise_bad_request "Failed to update item", st2)

/-! ### Helper lemmas about find?/map/filter used by several proofs -/

theorem find_map_replace {α : Type} (p : α → Bool) (r1 : α) (l : List α) (r0 : α)
    (h1 : p r1 = true) (h : l.find? p = some r0) :
    (l.map (fun x => if p x then r1 else x)).find? p = some r1 := by
  induction l with
  | nil => simp [List.find?] at h
  | cons a as ih =>
      by_cases ha : p a = true
      · rw [List.map_cons, if_pos ha]
        exact List.find?_cons_of_pos _ h1
      · rw [List.find?_cons_of_neg _ ha] at h
        rw [List.map_cons, if_neg ha, List.find?_cons_of_neg _ ha]
        exact ih h

theorem map_replace_idem {α : Type} (p : α → Bool) (r1 : α) (l : List α)
    (h1 : p r1 = true) :
    (l.map (fun x => if p x then r1 else x)).map (fun x => if p x then r1 else x)
      = l.map (fun x => if p x then r1 else x) := by
  induction l with
  | nil => rfl
  | cons a as ih =>
      by_cases ha : p a = true
      · simp only [List.map_cons, if_pos ha, if_pos h1, ih]
      · simp only [List.map_cons, if_neg ha, ih]

theorem find_map_replace_none {α : Type} (p : α → Bool) (r1 : α) (l : List α)
    (h1 : p r1 = false) :
    (l.map (fun x => if p x then r1 else x)).find? p = none := by
  rw [List.find?_eq_none]
  intro b hb
  rcases List.mem_map.mp hb with ⟨x, _, rfl⟩
  by_cases hx : p x = true
  · rw [if_pos hx, h1]; simp
  · rw [if_neg hx]; exact hx

theorem find_filter_out {α : Type} (p : α → Bool) (l : List α) :
    (l.filter (fun x => !(p x))).find? p = none := by
  rw [List.find?_eq_none]
  intro b hb
  have := (List.mem_filter.mp hb).2
  simp only [Bool.not_eq_true'] at this
  simp [this]

/-! ### Claim theorems -/

/-- Claim C1 (status: code_bug).  The spec says deleting a user cascades to
its items.  In the code, `Item.user_id` is declared `ForeignKey(...,
ondelete=SET NULL)` with `nullable=False`, and the ORM relationship has no
delete cascade, so deleting a user that still owns items makes the flush null
out a NOT NULL column: the commit raises, `delete_user` rolls back and
returns `False`, and the items (and the user) survive — contradicting both
the spec and the docstring of `delete_user`, which says the items of the user are
CASCADE-deleted.  This theorem evaluates the embedding at the failing input:
one user `u1` owning one item; `delete_user` fails and `get_item_by_user_id`
still returns the item. -/
theorem C1_delete_user_owning_items_fails :
    delete_user ⟨[⟨"u1", "Alice", "p"⟩], [⟨1, "buy milk", "u1", 5, none⟩], 2⟩ "u1" false
      = (false, ⟨[⟨"u1", "Alice", "p"⟩], [⟨1, "buy milk", "u1", 5, none⟩], 2⟩) ∧
    get_item_by_user_id ⟨[⟨"u1", "Alice", "p"⟩], [⟨1, "buy milk", "u1", 5, none⟩], 2⟩
        "u1" false
      = [itemModelValidate ⟨1, "buy milk", "u1", 5, none⟩] := by
  decide

/-- Claim C4 (status: code_bug).  For an invalid signature or a malformed
token the spec demands a typed 401 `AuthenticationError`.  In the code the
second handler is `except jwt.JWTError`, but the imported module is PyJWT,
which has no attribute `JWTError`; evaluating the class expression of the handler
raises `AttributeError`, which escapes `get_current_user` as an unhandled
internal fault instead of any 401 response.  Evaluated here at a malformed
token and at a token signed with a wrong key. -/
theorem C4_invalid_token_escapes_as_attribute_error :
    get_current_user (.malformed "not-a-jwt") 0 ⟨[], [], 1⟩ false
      = .attributeError ∧
    get_current_user (.signed ⟨some "u1", 99999⟩ "wrong-key") 0 ⟨[], [], 1⟩ false
      = .attributeError ∧
    (AuthOutcome.attributeError ≠ .httpError 401 "無効なトークン") := by
  decide

/-- Claim C8, counterexample.  The final clause of the claim says callers cannot
distinguish "does not exist" from "store error".  For the User repository function
`get_users` this is false: querying an empty store returns `some []` while a
store fault returns `none`, so the two outcomes are distinguishable. -/
theorem C8_get_users_distinguishes_fault_from_empty :
    get_users ⟨[], [], 1⟩ false = some [] ∧
    get_users ⟨[], [], 1⟩ true = none ∧
    (some ([] : List User) ≠ none) := by
  decide

/-- Claim C8, amended.  On any store-level fault the Item repository function
`get_item` returns `[]` and the User repository function `get_users` returns `None`,
and no fault propagates as an exception (every operation returns its normal
result shape); for `get_item` and the by-id getters the fault result
coincides with the not-found/empty result, but `get_users` returns `None`
only on a fault — a successful query never does — so that caller can tell a
store error from an empty store. -/
theorem C8_fault_result_shapes (st : Store) (iid : Nat) (uid : String) :
    get_item st true = [] ∧
    get_users st true = none ∧
    get_item_by_id st iid true = none ∧
    get_user_by_id st uid true = none ∧
    get_item_by_user_id st uid true = [] ∧
    get_item ⟨[], [], 1⟩ false = [] ∧
    get_users st false ≠ none := by
  simp [get_item, get_users, get_item_by_id, get_user_by_id, get_item_by_user_id]

/-- Claim C9 (status: confirmed).  On both repositories, `delete` returns
`true` exactly when a matching record existed and the commit succeeded (for
`delete_user` the commit succeeds only when the user owns no items, since
flushing the delete nulls a NOT NULL column otherwise — a store failure);
whenever it returns `false` — record missing, store fault, failed commit —
nothing is raised and the store is unchanged (rollback); and after a `true`
the record is gone. -/
theorem C9_delete_contract (st : Store) (iid : Nat) (uid : String) (fault : Bool) :
    ((delete_item st iid fault).fst = true ↔
      (fault = false ∧ findItem st iid ≠ none)) ∧
    ((delete_item st iid fault).fst = false → (delete_item st iid fault).snd = st) ∧
    ((delete_item st iid fault).fst = true →
      findItem (delete_item st iid fault).snd iid = none) ∧
    ((delete_user st uid fault).fst = true ↔
      (fault = false ∧ findUser st uid ≠ none ∧
        st.items.any (fun r => r.user_id == uid) = false)) ∧
    ((delete_user st uid fault).fst = false → (delete_user st uid fault).snd = st) ∧
    ((delete_user st uid fault).fst = true →
      findUser (delete_user st uid fault).snd uid = none) := by
  cases fault with
  | true => simp [delete_item, delete_user]
  | false =>
      have hdi : delete_item st iid false
          = (match findItem st iid with
             | some _ =>
                (true, { st with items := st.items.filter (fun r => !(r.item_id == iid)) })
             | none => (false, st)) := rfl
      have hdu : delete_user st uid false
          = (match findUser st uid with
             | none => (false, st)
             | some _ =>
                if st.items.any (fun r => r.user_id == uid) then (false, st)
                else (true, { st with users := st.users.filter (fun x => !(x.user_id == uid)) })) := rfl
      refine ⟨?_, ?_, ?_, ?_, ?_, ?_⟩
      · rw [hdi]; cases h : findItem st iid <;> simp [h]
      · rw [hdi]; cases h : findItem st iid <;> simp [h]
      · rw [hdi]; cases h : findItem st iid <;> simp [h]
        show findItem { st with items := st.items.filter (fun r => !(r.item_id == iid)) } iid = none
        exact find_filter_out (fun r => r.item_id == iid) st.items
      · rw [hdu]; cases h : findUser st uid <;>
          cases ha : st.items.any (fun r => r.user_id == uid) <;> simp [h, ha]
      · rw [hdu]; cases h : findUser st uid <;>
          cases ha : st.items.any (fun r => r.user_id == uid) <;> simp [h, ha]
      · rw [hdu]; cases h : findUser st uid <;>
          cases ha : st.items.any (fun r => r.user_id == uid) <;> simp [h, ha]
        show findUser { st with users := st.users.filter (fun x => !(x.user_id == uid)) } uid = none
        exact find_filter_out (fun x => x.user_id == uid) st.users

/-- Claim C2 (status: confirmed).  For a user id that resolves in the store,
a token from `create_access_token` is resolved by `get_current_user` to
exactly that user at any time strictly before 24 hours after issuance; at or
after 24 hours (PyJWT treats `exp <= now` as expired) resolution fails with
the expiry-specific 401, and with no other outcome, since the expiry check
precedes the payload/user steps. -/
theorem C2_token_resolution (st : Store) (uid : String) (u : User) (tIssue now : Int)
    (hu : get_user_by_id st uid false = some u) :
    (now < tIssue + 24 * 3600 →
      get_current_user (create_access_token tIssue uid) now st false = .ok u ∧
      u.user_id = uid) ∧
    (tIssue + 24 * 3600 ≤ now →
      get_current_user (create_access_token tIssue uid) now st false
        = .httpError 401 "トークンの有効期限が切れています") := by
  have h1 : st.users.find? (fun x => x.user_id == uid) = some u := by
    simpa [get_user_by_id, findUser] using hu
  have h2 : (u.user_id == uid) = true := by simpa using List.find?_some h1
  have huid : u.user_id = uid := eq_of_beq h2
  constructor
  · intro hlt
    have hne : ¬ (tIssue + 86400 ≤ now) := by omega
    refine ⟨?_, huid⟩
    simp [get_current_user, create_access_token, jwtDecode, hne, hu]
  · intro hle
    have hle2 : tIssue + 86400 ≤ now := by omega
    simp [get_current_user, create_access_token, jwtDecode, hle2]

/-- Claim C2 witness: user `u1` in the store; the token issued at time 0 is
accepted at 86399 s and rejected as expired at 86400 s. -/
theorem C2_witness :
    get_current_user (create_access_token 0 "u1") 86399
        ⟨[⟨"u1", "Alice", "p"⟩], [], 1⟩ false = .ok ⟨"u1", "Alice", "p"⟩ ∧
    get_current_user (create_access_token 0 "u1") 86400
        ⟨[⟨"u1", "Alice", "p"⟩], [], 1⟩ false
      = .httpError 401 "トークンの有効期限が切れています" :=
  ⟨((C2_token_resolution ⟨[⟨"u1", "Alice", "p"⟩], [], 1⟩ "u1" ⟨"u1", "Alice", "p"⟩ 0 86399
      (by decide)).1 (by decide)).1,
   (C2_token_resolution ⟨[⟨"u1", "Alice", "p"⟩], [], 1⟩ "u1" ⟨"u1", "Alice", "p"⟩ 0 86400
      (by decide)).2 (by decide)⟩

/-- Claim C3, counterexample.  `update_user` `setattr`s every field of the
full `model_dump()`, including the primary key `user_id`; updating user `u1`
with a record carrying `user_id = "u2"` renames the stored row, so `user_id`
is not immutable. -/
theorem C3_update_user_changes_user_id :
    update_user ⟨[⟨"u1", "Alice", "p"⟩], [], 1⟩ "u1" ⟨"u2", "Alice", "p"⟩ false
      = (some ⟨"u2", "Alice", "p"⟩, ⟨[⟨"u2", "Alice", "p"⟩], [], 1⟩) ∧
    get_user_by_id ⟨[⟨"u2", "Alice", "p"⟩], [], 1⟩ "u1" false = none := by
  decide

/-- Claim C3, amended: `update_user` is a full-field overwrite — on success
the stored record equals the supplied record in every field, including
`user_id`; the stored `user_id` is preserved only when the supplied record
carries the same id, and when it differs no row with the old id remains. -/
theorem C3_update_user_overwrites_all_fields (st : Store) (uid : String) (d r : User)
    (st2 : Store) (h : update_user st uid d false = (some r, st2)) :
    r = d ∧ (d.user_id ≠ uid → findUser st2 uid = none) := by
  unfold update_user at h
  rw [if_neg (by simp)] at h
  split at h
  · simp at h
  · split at h
    · simp at h
    · simp only [Prod.mk.injEq, Option.some.injEq] at h
      obtain ⟨hr, hst⟩ := h
      refine ⟨hr.symm, ?_⟩
      intro hne
      subst hst
      show (st.users.map (fun x => if x.user_id == uid then d else x)).find?
        (fun x => x.user_id == uid) = none
      exact find_map_replace_none (fun x => x.user_id == uid) d st.users
        (beq_eq_false_iff_ne.mpr hne)

/-- Claim C3 witness for the amended theorem, at the renaming input. -/
theorem C3_witness :
    ((⟨"u2", "Alice", "p"⟩ : User) = ⟨"u2", "Alice", "p"⟩) ∧
    (("u2" : String) ≠ "u1" → findUser ⟨[⟨"u2", "Alice", "p"⟩], [], 1⟩ "u1" = none) :=
  C3_update_user_overwrites_all_fields ⟨[⟨"u1", "Alice", "p"⟩], [], 1⟩ "u1"
    ⟨"u2", "Alice", "p"⟩ ⟨"u2", "Alice", "p"⟩ ⟨[⟨"u2", "Alice", "p"⟩], [], 1⟩ (by decide)

/-- On a successful insert, the row returned by `create_item` carries the
`user_id` of the supplied schema (the INSERT uses the dumped `user_id`, which
is always among the applied fields when the insert succeeds). -/
theorem create_item_result_user_id (st : Store) (it : ItemSchema) (fault : Bool)
    (r : ItemSchema) (st2 : Store) (h : create_item st it fault = (some r, st2)) :
    r.user_id = it.user_id := by
  unfold create_item at h
  repeat' split at h
  all_goals simp_all [itemModelValidate]
  all_goals obtain ⟨h1, h2⟩ := h
  all_goals rw [← h1]

/-- Claim C5 (status: confirmed).  `create_item_endpoint` overwrites the
`user_id` of the request body with the id of the token-resolved caller before calling
`create_item`, so on every successful creation the `user_id` of the returned item
equals the id of the caller, whatever `user_id` the body carried. -/
theorem C5_created_item_owned_by_caller (it : ItemSchema) (cu : User) (st : Store)
    (fault : Bool) (r : ItemSchema) (st2 : Store)
    (h : create_item_endpoint it cu st fault = (.returned (some r), st2)) :
    r.user_id = cu.user_id := by
  have h2 : create_item st { it with user_id := cu.user_id, set_user_id := true } fault
      = (some r, st2) := by
    simp only [create_item_endpoint, Prod.mk.injEq, HandlerOutcome.returned.injEq] at h
    obtain ⟨ha, hb⟩ := h
    cases hres : create_item st { it with user_id := cu.user_id, set_user_id := true } fault with
    | mk a b =>
        rw [hres] at ha hb
        simp only at ha hb
        rw [ha, hb]
  exact create_item_result_user_id st _ fault r st2 h2

/-- Claim C5 witness: the body supplies `user_id = "someone-else"`; the
created item is owned by the caller `u1`. -/
theorem C5_witness :
    (itemModelValidate ⟨1, "buy milk", "u1", 5, none⟩).user_id
      = (User.mk "u1" "Alice" "p").user_id :=
  C5_created_item_owned_by_caller
    ⟨none, "buy milk", "someone-else", 5, none, false, true, true, true, false⟩
    ⟨"u1", "Alice", "p"⟩ ⟨[⟨"u1", "Alice", "p"⟩], [], 1⟩ false
    (itemModelValidate ⟨1, "buy milk", "u1", 5, none⟩)
    ⟨[⟨"u1", "Alice", "p"⟩], [⟨1, "buy milk", "u1", 5, none⟩], 2⟩ (by decide)

/-- One-step specification of `update_finished_date` on an existing row: the
returned schema is the stored row with only `finished_date` replaced, the
stored row after the call is exactly that, a following `get_item_by_id`
returns it, and repeating the same call returns the same value and leaves the
store as it was. -/
theorem update_finished_date_spec (st : Store) (iid : Nat) (fd : Option Int)
    (r0 : ItemRecord) (h : findItem st iid = some r0) :
    (update_finished_date st iid fd false).fst
      = some (itemModelValidate { r0 with finished_date := fd }) ∧
    findItem (update_finished_date st iid fd false).snd iid
      = some { r0 with finished_date := fd } ∧
    get_item_by_id (update_finished_date st iid fd false).snd iid false
      = some (itemModelValidate { r0 with finished_date := fd }) ∧
    update_finished_date (update_finished_date st iid fd false).snd iid fd false
      = ((update_finished_date st iid fd false).fst,
         (update_finished_date st iid fd false).snd) := by
  have h' : st.items.find? (fun x => x.item_id == iid) = some r0 := h
  have hp : (r0.item_id == iid) = true := by simpa using List.find?_some h'
  have hp1 : (({ r0 with finished_date := fd } : ItemRecord).item_id == iid) = true := hp
  have e1 : update_finished_date st iid fd false
      = (some (itemModelValidate { r0 with finished_date := fd }),
         { st with items := st.items.map (fun x => if x.item_id == iid then { r0 with finished_date := fd } else x) }) := by
    unfold update_finished_date
    rw [if_neg (by simp), h]
  have find1 : findItem { st with items := st.items.map (fun x : ItemRecord => if x.item_id == iid then { r0 with finished_date := fd } else x) } iid
      = some { r0 with finished_date := fd } :=
    find_map_replace (fun x : ItemRecord => x.item_id == iid) { r0 with finished_date := fd }
      st.items r0 hp1 h'
  have idem1 : (st.items.map (fun x : ItemRecord => if x.item_id == iid then { r0 with finished_date := fd } else x)).map
        (fun x : ItemRecord => if x.item_id == iid then { r0 with finished_date := fd } else x)
      = st.items.map (fun x : ItemRecord => if x.item_id == iid then { r0 with finished_date := fd } else x) :=
    map_replace_idem (fun x : ItemRecord => x.item_id == iid) { r0 with finished_date := fd }
      st.items hp1
  refine ⟨?_, ?_, ?_, ?_⟩
  · rw [e1]
  · rw [e1]
    exact find1
  · rw [e1]
    show get_item_by_id { st with items := st.items.map (fun x : ItemRecord => if x.item_id == iid then { r0 with finished_date := fd } else x) } iid false
      = some (itemModelValidate { r0 with finished_date := fd })
    unfold get_item_by_id
    rw [if_neg (by simp), find1]
    rfl
  · rw [e1]
    show update_finished_date { st with items := st.items.map (fun x : ItemRecord => if x.item_id == iid then { r0 with finished_date := fd } else x) } iid fd false
      = (some (itemModelValidate { r0 with finished_date := fd }),
         { st with items := st.items.map (fun x : ItemRecord => if x.item_id == iid then { r0 with finished_date := fd } else x) })
    unfold update_finished_date
    rw [if_neg (by simp), find1]
    show (some (itemModelValidate { r0 with finished_date := fd }),
          { st with items := (st.items.map (fun x : ItemRecord => if x.item_id == iid then { r0 with finished_date := fd } else x)).map (fun x : ItemRecord => if x.item_id == iid then { r0 with finished_date := fd } else x) })
       = (some (itemModelValidate { r0 with finished_date := fd }),
          { st with items := st.items.map (fun x : ItemRecord => if x.item_id == iid then { r0 with finished_date := fd } else x) })
    rw [idem1]

/-- Claim C6 (status: confirmed).  For an existing item and timestamp `t`:
`update_finished_date(id, t)` then `get_item_by_id(id)` yields the item with
`finished_date = t` and every other field unchanged; a subsequent
`update_finished_date(id, None)` then `get_item_by_id(id)` yields it with
`finished_date` absent; and repeating either call with the same argument
returns the same value and leaves the store unchanged. -/
theorem C6_finish_roundtrip (st : Store) (iid : Nat) (t : Int) (r0 : ItemRecord)
    (h : findItem st iid = some r0) :
    (update_finished_date st iid (some t) false).fst
      = some (itemModelValidate { r0 with finished_date := some t }) ∧
    get_item_by_id (update_finished_date st iid (some t) false).snd iid false
      = some (itemModelValidate { r0 with finished_date := some t }) ∧
    update_finished_date (update_finished_date st iid (some t) false).snd iid (some t) false
      = ((update_finished_date st iid (some t) false).fst,
         (update_finished_date st iid (some t) false).snd) ∧
    (update_finished_date (update_finished_date st iid (some t) false).snd iid none false).fst
      = some (itemModelValidate { r0 with finished_date := none }) ∧
    get_item_by_id
        (update_finished_date (update_finished_date st iid (some t) false).snd iid none false).snd
        iid false
      = some (itemModelValidate { r0 with finished_date := none }) ∧
    update_finished_date
        (update_finished_date (update_finished_date st iid (some t) false).snd iid none false).snd
        iid none false
      = ((update_finished_date (update_finished_date st iid (some t) false).snd iid none false).fst,
         (update_finished_date (update_finished_date st iid (some t) false).snd iid none false).snd) := by
  obtain ⟨a1, b1, c1, d1⟩ := update_finished_date_spec st iid (some t) r0 h
  obtain ⟨a2, b2, c2, d2⟩ := update_finished_date_spec _ iid none _ b1
  exact ⟨a1, c1, d1, a2, c2, d2⟩

/-- Claim C6 witness: one stored item; after `update_finished_date(1, 42)`
the fetched item has `finished_date = 42`. -/
theorem C6_witness :
    get_item_by_id
        (update_finished_date ⟨[⟨"u1", "Alice", "p"⟩], [⟨1, "task", "u1", 5, none⟩], 2⟩
          1 (some 42) false).snd 1 false
      = some (itemModelValidate ⟨1, "task", "u1", 5, some 42⟩) :=
  (C6_finish_roundtrip ⟨[⟨"u1", "Alice", "p"⟩], [⟨1, "task", "u1", 5, none⟩], 2⟩
    1 42 ⟨1, "task", "u1", 5, none⟩ (by decide)).2.1

/-- Claim C7 (status: confirmed).  `create_item` applies only explicitly-set
fields — with `finished_date` unset the supplied value is ignored and the
store default (NULL) is applied — while `create_user` applies every field of
the candidate record: on success the stored/returned user equals the
candidate exactly. -/
theorem C7_create_asymmetry (st : Store) (it : ItemSchema) (v : Option Int)
    (u : User) (r : ItemSchema) (ru : User) (st2 st3 : Store)
    (hfd : it.set_finished_date = false) :
    (create_item st { it with finished_date := v } false
      = create_item st { it with finished_date := none } false) ∧
    (create_item st it false = (some r, st2) → r.finished_date = none) ∧
    (create_user st u false = (some ru, st3) → ru = u) := by
  refine ⟨?_, ?_, ?_⟩
  · simp [create_item, hfd]
  · intro h
    unfold create_item at h
    repeat' split at h
    all_goals simp_all [itemModelValidate]
    all_goals obtain ⟨h1, h2⟩ := h
    all_goals rw [← h1]
  · intro h
    unfold create_user at h
    repeat' split at h
    all_goals simp_all

/-- Claim C7 witness: an item schema with `finished_date` carrying a value
but not marked set, and a concrete user record. -/
theorem C7_witness :
    (create_item ⟨[], [], 1⟩ ⟨none, "t", "u1", 5, some 7, false, true, true, true, false⟩ false
      = create_item ⟨[], [], 1⟩ ⟨none, "t", "u1", 5, none, false, true, true, true, false⟩ false) ∧
    (create_item ⟨[], [], 1⟩ ⟨none, "t", "u1", 5, some 99, false, true, true, true, false⟩ false
        = (some (itemModelValidate ⟨1, "t", "u1", 5, none⟩), ⟨[], [⟨1, "t", "u1", 5, none⟩], 2⟩)
      → (itemModelValidate ⟨1, "t", "u1", 5, none⟩).finished_date = none) ∧
    (create_user ⟨[], [], 1⟩ ⟨"u1", "A", "p"⟩ false
        = (some (User.mk "u1" "A" "p"), ⟨[⟨"u1", "A", "p"⟩], [], 1⟩)
      → User.mk "u1" "A" "p" = ⟨"u1", "A", "p"⟩) :=
  C7_create_asymmetry ⟨[], [], 1⟩ ⟨none, "t", "u1", 5, some 99, false, true, true, true, false⟩
    (some 7) ⟨"u1", "A", "p"⟩ (itemModelValidate ⟨1, "t", "u1", 5, none⟩) ⟨"u1", "A", "p"⟩
    ⟨[], [⟨1, "t", "u1", 5, none⟩], 2⟩ ⟨[⟨"u1", "A", "p"⟩], [], 1⟩ rfl

/-- Claim C10 (status: confirmed).  For any authenticated PUT
`/items/{item_id}` where no such item exists, `update_item` returns `None`,
the 404 helper `raise_not_found` fires inside its `try` block, and the
`except Exception` branch rewrites it into `raise_bad_request("Failed to
update item")`: the response is the 400, never the 404. -/
theorem C10_update_missing_item_gives_bad_request (iid : Nat) (it : ItemSchema)
    (cu : User) (st : Store) (fault : Bool) (h : findItem st iid = none) :
    (update_item_endpoint iid it cu st fault).fst
      = raise_bad_request "Failed to update item" ∧
    (update_item_endpoint iid it cu st fault).fst ≠ raise_not_found "Item not found" := by
  have hupd : update_item st iid { it with user_id := cu.user_id, set_user_id := true } fault
      = (none, st) := by
    cases fault with
    | true => rfl
    | false =>
        unfold update_item
        rw [if_neg (by simp), h]
  have he : update_item_endpoint iid it cu st fault
      = (raise_bad_request "Failed to update item", st) := by
    simp only [update_item_endpoint]
    rw [hupd]
  rw [he]
  refine ⟨rfl, ?_⟩
  simp [raise_bad_request, raise_not_found]

/-- Claim C10 witness: empty store, item id 7. -/
theorem C10_witness :
    (update_item_endpoint 7 ⟨none, "t", "x", 5, none, false, true, true, true, false⟩
        ⟨"u1", "A", "p"⟩ ⟨[], [], 1⟩ false).fst
      = raise_bad_request "Failed to update item" ∧
    (update_item_endpoint 7 ⟨none, "t", "x", 5, none, false, true, true, true, false⟩
        ⟨"u1", "A", "p"⟩ ⟨[], [], 1⟩ false).fst ≠ raise_not_found "Item not found" :=
  C10_update_missing_item_gives_bad_request 7
    ⟨none, "t", "x", 5, none, false, true, true, true, false⟩
    ⟨"u1", "A", "p"⟩ ⟨[], [], 1⟩ false (by decide)
